import Mathlib

/-!
Verification development for the WiproGoodWid repository.

The definitions below are a shallow embedding of the TypeScript source:
JavaScript values are modelled by the inductive JSValue (numbers as exact
rationals, NaN as a separate constructor), records by association lists in
insertion order, exceptions by Except, and the asynchronous provider calls
of the pairing layer by explicit response parameters plus a trace of the
calls that were issued.  Builtin JavaScript operations used by the source
(JSON.parse, JSON.stringify, String.prototype.trim and split, Number,
parseInt, String coercion) are modelled faithfully on the fragments the
source exercises; non-finite numerals (Infinity) and exotic Unicode
whitespace are outside the model.
-/

namespace WiproGoodWid

/-- Model of a JavaScript runtime value.  NaN is kept apart from the finite
numbers, which are modelled as exact rationals. -/
inductive JSValue where
  | null
  | nan
  | bool (b : Bool)
  | num (q : Rat)
  | str (s : String)
  | arr (elems : List JSValue)
  | obj (fields : List (String × JSValue))

/-- A thrown JavaScript exception: either an explicit Error with a message
or a runtime TypeError (such as calling toString on null). -/
inductive JsError where
  | error (msg : String)
  | typeError
deriving DecidableEq

-- Characters written via code points so that braces and quotes never
-- appear literally inside character syntax.
def chLBrace : Char := Char.ofNat 123
def chRBrace : Char := Char.ofNat 125
def chLBrack : Char := Char.ofNat 91
def chRBrack : Char := Char.ofNat 93
def chQuote : Char := Char.ofNat 34
def chBackslash : Char := Char.ofNat 92
def chApostrophe : Char := Char.ofNat 39

/-- Whitespace recognised by String.prototype.trim (ASCII fragment). -/
def isJsWs (c : Char) : Bool :=
  c = ' ' ∨ c = '\t' ∨ c = '\n' ∨ c = '\r' ∨ c = Char.ofNat 11 ∨ c = Char.ofNat 12

/-- Model of String.prototype.trim. -/
def jsTrim (s : String) : String :=
  ⟨((s.data.dropWhile isJsWs).reverse.dropWhile isJsWs).reverse⟩

def splitCharAux (sep : Char) : List Char → List Char → List (List Char)
  | [], acc => [acc.reverse]
  | c :: rest, acc =>
    if c = sep then acc.reverse :: splitCharAux sep rest []
    else splitCharAux sep rest (c :: acc)

/-- Model of String.prototype.split with a one-character separator:
an empty string yields a single empty field, separators at the edges
yield empty fields. -/
def jsSplit (sep : Char) (s : String) : List String :=
  (splitCharAux sep s.data []).map (fun cs => ⟨cs⟩)

/-- Model of the regex replace removing one leading left brace and one
trailing right brace (the source pattern anchors with caret and dollar). -/
def stripBraces (s : String) : String :=
  let cs := match s.data with
    | c :: rest => if c = chLBrace then rest else s.data
    | [] => []
  let cs2 := match cs.reverse with
    | c :: rest => if c = chRBrace then rest.reverse else cs
    | [] => []
  ⟨cs2⟩

/-- Model of the regex replace removing one leading and one trailing
single or double quote. -/
def stripQuotes (s : String) : String :=
  let isQ : Char → Bool := fun c => c = chQuote ∨ c = chApostrophe
  let cs := match s.data with
    | c :: rest => if isQ c then rest else s.data
    | [] => []
  let cs2 := match cs.reverse with
    | c :: rest => if isQ c then rest.reverse else cs
    | [] => []
  ⟨cs2⟩

def digitVal (c : Char) : Nat := c.toNat - 48

def natOfDigits (cs : List Char) : Nat :=
  cs.foldl (fun acc c => 10 * acc + digitVal c) 0

/-- Model of parseInt(s, 10): skip leading whitespace, optional sign,
maximal run of decimal digits; none models the NaN result. -/
def parseIntJS (s : String) : Option Int :=
  let cs := s.data.dropWhile isJsWs
  let signAndRest : Int × List Char :=
    match cs with
    | c :: rest =>
      if c = '-' then (-1, rest)
      else if c = '+' then (1, rest)
      else (1, cs)
    | [] => (1, [])
  let digits := signAndRest.2.takeWhile Char.isDigit
  if digits.isEmpty then none
  else some (signAndRest.1 * (natOfDigits digits : Int))

def hexDigitVal (c : Char) : Option Nat :=
  if c.isDigit then some (c.toNat - 48)
  else if 'a' ≤ c ∧ c ≤ 'f' then some (c.toNat - 87)
  else if 'A' ≤ c ∧ c ≤ 'F' then some (c.toNat - 55)
  else none

def natOfHexDigits (cs : List Char) : Option Nat :=
  cs.foldl (fun acc c => match acc, hexDigitVal c with
    | some a, some d => some (16 * a + d)
    | _, _ => none) (some 0)

/-- The rational mant times ten to the e, built from integer arithmetic
(the division only appears for a negative exponent). -/
def ratScale (mant : Int) (e : Int) : Rat :=
  if 0 ≤ e then ((mant * (10 : Int) ^ e.toNat : Int) : Rat)
  else (mant : Rat) / (((10 : Int) ^ (-e).toNat : Int) : Rat)

/-- Decimal numeral body used by the Number() model:
digits [ dot digits ] | dot digits, with an optional exponent.  The value
is the digit string read as an integer mantissa, scaled by ten to the
exponent minus the number of fraction digits. -/
def decBodyVal (cs : List Char) : Option Rat :=
  let intDigits := cs.takeWhile Char.isDigit
  let rest1 := cs.drop intDigits.length
  let fracAndRest : List Char × List Char :=
    match rest1 with
    | c :: r => if c = '.' then (r.takeWhile Char.isDigit, r.drop (r.takeWhile Char.isDigit).length) else ([], rest1)
    | [] => ([], rest1)
  let fracDigits := fracAndRest.1
  let rest2 := fracAndRest.2
  if intDigits.isEmpty ∧ fracDigits.isEmpty then none
  else
    let mant : Int := (natOfDigits (intDigits ++ fracDigits) : Int)
    match rest2 with
    | [] => some (ratScale mant (-(fracDigits.length : Int)))
    | e :: r =>
      if e = 'e' ∨ e = 'E' then
        let signAndRest : Int × List Char :=
          match r with
          | c :: r2 =>
            if c = '-' then (-1, r2)
            else if c = '+' then (1, r2)
            else (1, r)
          | [] => (1, [])
        let expDigits := signAndRest.2.takeWhile Char.isDigit
        if expDigits.isEmpty ∨ ¬ (signAndRest.2.drop expDigits.length).isEmpty then none
        else
          let ex : Int := signAndRest.1 * (natOfDigits expDigits : Int)
          some (ratScale mant (ex - fracDigits.length))
      else none

/-- Model of Number(s) on finite numerals; none models NaN.  Whitespace-only
input converts to zero.  Hex, octal and binary literals (unsigned only,
as in JavaScript) are supported; the non-finite Infinity spellings are
outside the model. -/
def jsNumberOpt (s : String) : Option Rat :=
  let cs := (jsTrim s).data
  match cs with
  | [] => some 0
  | '0' :: x :: rest =>
    if x = 'x' ∨ x = 'X' then
      if rest.isEmpty then none else (natOfHexDigits rest).map (fun n => (n : Rat))
    else
      match cs with
      | c :: r =>
        if c = '-' then (decBodyVal r).map (fun q => -q)
        else if c = '+' then decBodyVal r
        else decBodyVal cs
      | [] => none
  | c :: r =>
    if c = '-' then (decBodyVal r).map (fun q => -q)
    else if c = '+' then decBodyVal r
    else decBodyVal cs

def digitChar (n : Nat) : Char := Char.ofNat (48 + n)

def fracDigitChars : Nat → Nat → Nat → List Char
  | 0, _, _ => []
  | _ + 1, 0, _ => []
  | fuel + 1, r, d =>
    let r10 := r * 10
    digitChar (r10 / d) :: fracDigitChars fuel (r10 % d) d

/-- Model of the JavaScript number-to-string conversion, exact on integers
and on fractions terminating within twenty decimal digits (the only
numbers the claims exercise are integers). -/
def numToString (q : Rat) : String :=
  if q.den = 1 then toString q.num
  else
    let sign := if q.num < 0 then "-" else ""
    let na := q.num.natAbs
    sign ++ toString (na / q.den) ++ "." ++ (⟨fracDigitChars 20 (na % q.den) q.den⟩ : String)

/-- Setting a property on a record object: an existing key keeps its
position and receives the new value, a fresh key is appended. -/
def recordSet (fields : List (String × JSValue)) (k : String) (v : JSValue) :
    List (String × JSValue) :=
  match fields with
  | [] => [(k, v)]
  | (k', v') :: rest =>
    if k' = k then (k', v) :: rest else (k', v') :: recordSet rest k v

-- ### Model of JSON.parse (ECMA-404 grammar, numbers as exact rationals)

def isJsonWs (c : Char) : Bool := c = ' ' ∨ c = '\t' ∨ c = '\n' ∨ c = '\r'

def skipJsonWs (cs : List Char) : List Char := cs.dropWhile isJsonWs

/-- JSON string body after the opening quote; returns the decoded string
and the remaining characters.  Standard escapes and 4-digit unicode
escapes are decoded; raw control characters are rejected. -/
def jsonStrAux : Nat → List Char → List Char → Option (String × List Char)
  | 0, _, _ => none
  | _ + 1, [], _ => none
  | fuel + 1, c :: rest, acc =>
    if c = chQuote then some ((⟨acc.reverse⟩ : String), rest)
    else if c = chBackslash then
      match rest with
      | [] => none
      | e :: rest2 =>
        if e = chQuote then jsonStrAux fuel rest2 (chQuote :: acc)
        else if e = chBackslash then jsonStrAux fuel rest2 (chBackslash :: acc)
        else if e = '/' then jsonStrAux fuel rest2 ('/' :: acc)
        else if e = 'b' then jsonStrAux fuel rest2 (Char.ofNat 8 :: acc)
        else if e = 'f' then jsonStrAux fuel rest2 (Char.ofNat 12 :: acc)
        else if e = 'n' then jsonStrAux fuel rest2 ('\n' :: acc)
        else if e = 'r' then jsonStrAux fuel rest2 ('\r' :: acc)
        else if e = 't' then jsonStrAux fuel rest2 ('\t' :: acc)
        else if e = 'u' then
          match rest2 with
          | h1 :: h2 :: h3 :: h4 :: rest3 =>
            match hexDigitVal h1, hexDigitVal h2, hexDigitVal h3, hexDigitVal h4 with
            | some a, some b, some c', some d =>
              jsonStrAux fuel rest3 (Char.ofNat (((a * 16 + b) * 16 + c') * 16 + d) :: acc)
            | _, _, _, _ => none
          | _ => none
        else none
    else if c.toNat < 32 then none
    else jsonStrAux fuel rest (c :: acc)

/-- JSON number grammar: minus? (0 | [1-9] digits) frac? exp?. -/
def parseJsonNumber (cs : List Char) : Option (Rat × List Char) :=
  let signAndRest : Int × List Char :=
    match cs with
    | c :: r => if c = '-' then (-1, r) else (1, cs)
    | [] => (1, cs)
  let body := signAndRest.2
  let intAndRest : Option (List Char × List Char) :=
    match body with
    | c :: r =>
      if c = '0' then some ([c], r)
      else if c.isDigit then some (body.takeWhile Char.isDigit, body.dropWhile Char.isDigit)
      else none
    | [] => none
  match intAndRest with
  | none => none
  | some (intDigits, rest1) =>
    let fracAndRest : Option (List Char × List Char) :=
      match rest1 with
      | c :: r =>
        if c = '.' then
          let ds := r.takeWhile Char.isDigit
          if ds.isEmpty then none else some (ds, r.drop ds.length)
        else some ([], rest1)
      | [] => some ([], rest1)
    match fracAndRest with
    | none => none
    | some (fracDs, rest2) =>
      let expAndRest : Option (Int × List Char) :=
        match rest2 with
        | e :: r =>
          if e = 'e' ∨ e = 'E' then
            let sgnAndR : Int × List Char :=
              match r with
              | c :: r2 =>
                if c = '-' then (-1, r2) else if c = '+' then (1, r2) else (1, r)
              | [] => (1, r)
            let ds := sgnAndR.2.takeWhile Char.isDigit
            if ds.isEmpty then none
            else some (sgnAndR.1 * (natOfDigits ds : Int), sgnAndR.2.drop ds.length)
          else some (0, rest2)
        | [] => some (0, rest2)
      match expAndRest with
      | none => none
      | some (ex, rest3) =>
        let mant : Int := signAndRest.1 * (natOfDigits (intDigits ++ fracDs) : Int)
        some (ratScale mant (ex - fracDs.length), rest3)

mutual

/-- Recursive-descent JSON value; the fuel only bounds recursion depth and
loop length, and the callers supply more fuel than the input length, so
the zero-fuel branch is unreachable. -/
def parseJsonValue : Nat → List Char → Option (JSValue × List Char)
  | 0, _ => none
  | fuel + 1, cs =>
    match skipJsonWs cs with
    | [] => none
    | c :: rest =>
      if c = 'n' then
        match rest with
        | 'u' :: 'l' :: 'l' :: r => some (JSValue.null, r)
        | _ => none
      else if c = 't' then
        match rest with
        | 'r' :: 'u' :: 'e' :: r => some (JSValue.bool true, r)
        | _ => none
      else if c = 'f' then
        match rest with
        | 'a' :: 'l' :: 's' :: 'e' :: r => some (JSValue.bool false, r)
        | _ => none
      else if c = chQuote then
        (jsonStrAux (rest.length + 1) rest []).map (fun p => (JSValue.str p.1, p.2))
      else if c = chLBrace then
        match skipJsonWs rest with
        | d :: r2 =>
          if d = chRBrace then some (JSValue.obj [], r2)
          else
            (parseJsonMembers fuel (skipJsonWs rest) []).map
              (fun p => (JSValue.obj p.1, p.2))
        | [] => none
      else if c = chLBrack then
        match skipJsonWs rest with
        | d :: r2 =>
          if d = chRBrack then some (JSValue.arr [], r2)
          else
            (parseJsonElements fuel (skipJsonWs rest) []).map
              (fun p => (JSValue.arr p.1.reverse, p.2))
        | [] => none
      else if c = '-' ∨ c.isDigit then
        (parseJsonNumber (c :: rest)).map (fun p => (JSValue.num p.1, p.2))
      else none

/-- Object members; duplicate keys follow the JavaScript overwrite rule. -/
def parseJsonMembers : Nat → List Char → List (String × JSValue) →
    Option (List (String × JSValue) × List Char)
  | 0, _, _ => none
  | fuel + 1, cs, acc =>
    match skipJsonWs cs with
    | c :: rest =>
      if c = chQuote then
        match jsonStrAux (rest.length + 1) rest [] with
        | none => none
        | some (key, rest2) =>
          match skipJsonWs rest2 with
          | ':' :: rest3 =>
            match parseJsonValue fuel rest3 with
            | none => none
            | some (v, rest4) =>
              let acc' := recordSet acc key v
              match skipJsonWs rest4 with
              | ',' :: rest5 => parseJsonMembers fuel rest5 acc'
              | d :: rest5 =>
                if d = chRBrace then some (acc', rest5) else none
              | [] => none
          | _ => none
      else none
    | [] => none

/-- Array elements, accumulated in reverse. -/
def parseJsonElements : Nat → List Char → List JSValue →
    Option (List JSValue × List Char)
  | 0, _, _ => none
  | fuel + 1, cs, acc =>
    match parseJsonValue fuel cs with
    | none => none
    | some (v, rest) =>
      match skipJsonWs rest with
      | ',' :: rest2 => parseJsonElements fuel rest2 (v :: acc)
      | d :: rest2 =>
        if d = chRBrack then some (v :: acc, rest2) else none
      | [] => none

end

/-- Model of JSON.parse: none models a thrown SyntaxError. -/
def jsonParse (s : String) : Option JSValue :=
  match parseJsonValue (s.data.length + 2) s.data with
  | none => none
  | some (v, rest) => if (skipJsonWs rest).isEmpty then some v else none

-- ### Model of JSON.stringify and string coercion

def jsonEscapeChar (c : Char) : List Char :=
  if c = chQuote then [chBackslash, chQuote]
  else if c = chBackslash then [chBackslash, chBackslash]
  else if c = '\n' then [chBackslash, 'n']
  else if c = '\r' then [chBackslash, 'r']
  else if c = '\t' then [chBackslash, 't']
  else if c = Char.ofNat 8 then [chBackslash, 'b']
  else if c = Char.ofNat 12 then [chBackslash, 'f']
  else if c.toNat < 32 then
    [chBackslash, 'u', '0', '0', digitChar (c.toNat / 16),
      (if c.toNat % 16 < 10 then digitChar (c.toNat % 16) else Char.ofNat (87 + c.toNat % 16))]
  else [c]

def jsonQuote (s : String) : String :=
  ⟨chQuote :: (s.data.flatMap jsonEscapeChar) ++ [chQuote]⟩

mutual

/-- Model of JSON.stringify (the source never passes undefined or
functions, so every value stringifies; NaN prints as null). -/
def jsonStringify : JSValue → String
  | JSValue.null => "null"
  | JSValue.nan => "null"
  | JSValue.bool b => if b then "true" else "false"
  | JSValue.num q => numToString q
  | JSValue.str s => jsonQuote s
  | JSValue.arr es =>
    (⟨[chLBrack]⟩ : String) ++ jsonStringifyArr es ++ (⟨[chRBrack]⟩ : String)
  | JSValue.obj fs =>
    (⟨[chLBrace]⟩ : String) ++ jsonStringifyObj fs ++ (⟨[chRBrace]⟩ : String)

/-- Array elements joined by commas. -/
def jsonStringifyArr : List JSValue → String
  | [] => ""
  | [v] => jsonStringify v
  | v :: rest => jsonStringify v ++ "," ++ jsonStringifyArr rest

/-- Object members joined by commas. -/
def jsonStringifyObj : List (String × JSValue) → String
  | [] => ""
  | [(k, v)] => jsonQuote k ++ ":" ++ jsonStringify v
  | (k, v) :: rest => jsonQuote k ++ ":" ++ jsonStringify v ++ "," ++ jsonStringifyObj rest

end

mutual

/-- Model of the String(v) coercion used by template literals. -/
def jsDisplay : JSValue → String
  | JSValue.null => "null"
  | JSValue.nan => "NaN"
  | JSValue.bool b => if b then "true" else "false"
  | JSValue.num q => numToString q
  | JSValue.str s => s
  | JSValue.arr es => jsDisplayArr es
  | JSValue.obj _ => "[object Object]"

/-- Array elements coerced and joined by commas (the Array toString). -/
def jsDisplayArr : List JSValue → String
  | [] => ""
  | [v] => jsDisplay v
  | v :: rest => jsDisplay v ++ "," ++ jsDisplayArr rest

end

/-- Model of v.toString(): throws a TypeError on null, otherwise agrees
with the String coercion on the value shapes the source handles. -/
def toStringJS (v : JSValue) : Except JsError String :=
  match v with
  | JSValue.null => Except.error JsError.typeError
  | _ => Except.ok (jsDisplay v)

/-- Model of Boolean(v): JavaScript truthiness. -/
def jsTruthy (v : JSValue) : Bool :=
  match v with
  | JSValue.null => false
  | JSValue.nan => false
  | JSValue.bool b => b
  | JSValue.num q => q ≠ 0
  | JSValue.str s => s ≠ ""
  | JSValue.arr _ => true
  | JSValue.obj _ => true

-- ### parseJavaHashMapString (src/utils/TuyaUtils.ts, lines 539 to 594)

/-- One comma-separated pair of the legacy fallback format: split on the
equals sign, keep the first two fields, skip the pair when the key is
falsy (empty) or no value part exists, then classify the trimmed value as
boolean, null, number or quote-stripped string. -/
def legacyPairAdd (acc : List (String × JSValue)) (pair : String) : List (String × JSValue) :=
  match jsSplit '=' pair with
  | key :: value :: _ =>
    if key ≠ "" then
      let cleanKey := jsTrim key
      let cleanValue := jsTrim value
      let v : JSValue :=
        if cleanValue = "true" then JSValue.bool true
        else if cleanValue = "false" then JSValue.bool false
        else if cleanValue = "null" then JSValue.null
        else
          match jsNumberOpt cleanValue with
          | some q => JSValue.num q
          | none => JSValue.str (stripQuotes cleanValue)
      recordSet acc cleanKey v
    else acc
  | _ => acc

/-- Model of parseJavaHashMapString: empty or whitespace-only input yields
the empty object; otherwise JSON.parse is attempted and its value returned
on success; on failure the legacy fallback strips one brace from each end,
trims, and folds the comma-separated pairs into an object.  The function
is total: the catch handler around the fallback is unreachable because no
operation in it throws. -/
def parseJavaHashMapString (s : String) : JSValue :=
  if s = "" ∨ jsTrim s = "" then JSValue.obj []
  else
    match jsonParse s with
    | some v => v
    | none =>
      let content := jsTrim (stripBraces s)
      if content = "" then JSValue.obj []
      else JSValue.obj ((jsSplit ',' content).foldl legacyPairAdd [])

-- ### DataPoint registry (src/utils/TuyaUtils.ts, lines 370 to 456)

inductive CommandType where
  | boolean
  | integer
  | enum
  | json
  | string
deriving DecidableEq

structure RangeSpec where
  min : Int
  max : Int
deriving DecidableEq

structure DeviceCommandMapping where
  dpId : Int
  name : String
  description : String
  type : CommandType
  range : Option RangeSpec := none
  options : Option (List String) := none
  jsonStructure : Option String := none

def switch_led : DeviceCommandMapping :=
  { dpId := 20, name := "Power", description := "Turn the light on and off",
    type := CommandType.boolean }

def work_mode : DeviceCommandMapping :=
  { dpId := 21, name := "Work Mode",
    description := "Switch between white light, color, scenes, etc.",
    type := CommandType.enum,
    options := some ["white", "colour", "scene", "music"] }

def bright_value_v2 : DeviceCommandMapping :=
  { dpId := 22, name := "Brightness", description := "Control the brightness level",
    type := CommandType.integer, range := some { min := 10, max := 1000 } }

def temp_value_v2 : DeviceCommandMapping :=
  { dpId := 23, name := "Color Temperature",
    description := "Adjust the color temperature of white light",
    type := CommandType.integer, range := some { min := 0, max := 1000 } }

def colour_data_v2 : DeviceCommandMapping :=
  { dpId := 24, name := "Color", description := "Set specific color using HSV values",
    type := CommandType.json,
    jsonStructure := some "\x7b\"h\": 0-360, \"s\": 0-1000, \"v\": 0-1000\x7d" }

def scene_data_v2 : DeviceCommandMapping :=
  { dpId := 25, name := "Scene", description := "Activate predefined lighting scenes",
    type := CommandType.json, jsonStructure := some "\x7b\"scene_num\": 1-8\x7d" }

def countdown_1 : DeviceCommandMapping :=
  { dpId := 26, name := "Countdown Timer",
    description := "Set a countdown timer in seconds",
    type := CommandType.integer, range := some { min := 0, max := 86400 } }

/-- TUYA_DEVICE_COMMANDS in declaration order (Object.values order). -/
def TUYA_DEVICE_COMMANDS : List (String × DeviceCommandMapping) :=
  [("switch_led", switch_led), ("work_mode", work_mode),
   ("bright_value_v2", bright_value_v2), ("temp_value_v2", temp_value_v2),
   ("colour_data_v2", colour_data_v2), ("scene_data_v2", scene_data_v2),
   ("countdown_1", countdown_1)]

/-- Model of getCommandByDpId: find over Object.values.  The source calls
it with a parseInt result, so the argument is an Option Int whose none
models NaN, which compares unequal to every dpId. -/
def getCommandByDpId (dpId : Option Int) : Option DeviceCommandMapping :=
  (TUYA_DEVICE_COMMANDS.map Prod.snd).find?
    (fun cmd => match dpId with
      | some n => cmd.dpId = n
      | none => false)

/-- Model of getCommandByName: lookup in the record by key. -/
def getCommandByName (name : String) : Option DeviceCommandMapping :=
  (TUYA_DEVICE_COMMANDS.find? (fun kv => kv.1 = name)).map Prod.snd

-- ### createCommandPayload (src/utils/TuyaUtils.ts, lines 459 to 499)

/-- The switch statement of createCommandPayload computing processedValue.
json: object-typed values (objects, arrays and null, following the
JavaScript typeof) are serialized to a string, others pass through.
boolean: coerced via truthiness.  integer: parseInt of the toString of the
value (a TypeError on null), then clamped into the range when one is
present; none from parseInt models NaN, which the clamp propagates.
enum: when an options list is present, a value that is not one of the
option strings raises the invalid-enum-value Error.  string and every
other unhandled case: the value passes through unchanged. -/
def processValue (command : DeviceCommandMapping) (value : JSValue) :
    Except JsError JSValue :=
  match command.type with
  | CommandType.json =>
    match value with
    | JSValue.obj _ => Except.ok (JSValue.str (jsonStringify value))
    | JSValue.arr _ => Except.ok (JSValue.str (jsonStringify value))
    | JSValue.null => Except.ok (JSValue.str (jsonStringify value))
    | _ => Except.ok value
  | CommandType.boolean => Except.ok (JSValue.bool (jsTruthy value))
  | CommandType.integer =>
    match toStringJS value with
    | Except.error e => Except.error e
    | Except.ok s =>
      let parsed := parseIntJS s
      match command.range with
      | none =>
        Except.ok (match parsed with
          | some n => JSValue.num (n : Rat)
          | none => JSValue.nan)
      | some r =>
        Except.ok (match parsed with
          | some n => JSValue.num ((max r.min (min r.max n) : Int) : Rat)
          | none => JSValue.nan)
  | CommandType.enum =>
    match command.options with
    | some opts =>
      let isMember : Bool :=
        match value with
        | JSValue.str s => opts.contains s
        | _ => false
      if ¬ isMember then
        Except.error (JsError.error
          ("Invalid enum value: " ++ jsDisplay value ++ ". Valid options: " ++
            String.intercalate ", " opts))
      else Except.ok value
    | none => Except.ok value
  | CommandType.string => Except.ok value

/-- Model of createCommandPayload: the processed value wrapped under the
stringified dpId key and serialized with JSON.stringify. -/
def createCommandPayload (command : DeviceCommandMapping) (value : JSValue) :
    Except JsError String :=
  (processValue command value).map
    (fun pv => jsonStringify (JSValue.obj [(toString command.dpId, pv)]))

-- ### convertDpDataToReadable (src/utils/TuyaUtils.ts, lines 597 to 614)

/-- The key under which an entry of the decoded state lands: the human
name of the registered DataPoint when parseInt of the key resolves to a
registered dpId, otherwise the raw key. -/
def readableKey (key : String) : String :=
  match getCommandByDpId (parseIntJS key) with
  | some cmd => cmd.name
  | none => key

/-- Model of convertDpDataToReadable: fold the entries in order into a
fresh record, writing each value under its readable key (a collision
overwrites the earlier value, as assignment to a record does). -/
def convertDpDataToReadable (dpData : List (String × JSValue)) :
    List (String × JSValue) :=
  dpData.foldl (fun acc kv => recordSet acc (readableKey kv.1) kv.2) []

-- ### Pairing data model (src/unnamed/part_002 type declarations)

structure ScannedDevice where
  id : String
  name : String
  mac : String
  rssi : Int
  address : String
  uuid : String
  deviceType : Int
  productId : String
  configType : String
  isBind : Bool
  flag : Nat
deriving DecidableEq

structure PairedDevice where
  devId : String
  name : String
  iconUrl : String
  productId : String
  uuid : String
  isOnline : Bool
deriving DecidableEq

structure BlePairingParams where
  homeId : Int
  uuid : String
  deviceType : Int
  productId : Option String := none
  address : Option String := none
  isShare : Option Bool := none
  timeout : Option Int := none
deriving DecidableEq

structure ComboPairingParams where
  homeId : Int
  uuid : String
  deviceType : Int
  token : String
  ssid : String
  password : String
  mac : Option String := none
  address : Option String := none
  timeout : Option Int := none
deriving DecidableEq

-- ### TuyaPairingUtils helpers (src/unnamed/part_001, lines 474 to 497)

/-- Model of TuyaPairingUtils.isDeviceBound. -/
def isDeviceBound (device : ScannedDevice) : Bool := device.isBind

inductive PairingType where
  | ble
  | combo
deriving DecidableEq

/-- Model of TuyaPairingUtils.getDevicePairingType. -/
def getDevicePairingType (device : ScannedDevice) : PairingType :=
  if device.configType = "config_type_single" then PairingType.ble else PairingType.combo

/-- Model of TuyaPairingUtils.isSharedDevice: tests bit zero of the flag. -/
def isSharedDevice (device : ScannedDevice) : Bool := Nat.land device.flag 1 ≠ 0

-- ### The useTuyaPairing hook (src/utils/useTuyaPairing.ts)

/-- Partial override object accepted by pairBleDevice; a some field
overrides the constructed default. -/
structure BlePairingParamsPartial where
  homeId : Option Int := none
  uuid : Option String := none
  deviceType : Option Int := none
  productId : Option String := none
  address : Option String := none
  isShare : Option Bool := none
  timeout : Option Int := none

/-- Partial override object accepted by pairComboDevice. -/
structure ComboPairingParamsPartial where
  homeId : Option Int := none
  uuid : Option String := none
  deviceType : Option Int := none
  token : Option String := none
  ssid : Option String := none
  password : Option String := none
  mac : Option String := none
  address : Option String := none
  timeout : Option Int := none

/-- The object spread of the overrides over the constructed defaults. -/
def mergeBleParams (d : BlePairingParams) (p : BlePairingParamsPartial) : BlePairingParams :=
  { homeId := p.homeId.getD d.homeId
    uuid := p.uuid.getD d.uuid
    deviceType := p.deviceType.getD d.deviceType
    productId := match p.productId with
      | some v => some v
      | none => d.productId
    address := match p.address with
      | some v => some v
      | none => d.address
    isShare := match p.isShare with
      | some v => some v
      | none => d.isShare
    timeout := match p.timeout with
      | some v => some v
      | none => d.timeout }

/-- The object spread of the overrides over the constructed defaults. -/
def mergeComboParams (d : ComboPairingParams) (p : ComboPairingParamsPartial) : ComboPairingParams :=
  { homeId := p.homeId.getD d.homeId
    uuid := p.uuid.getD d.uuid
    deviceType := p.deviceType.getD d.deviceType
    token := p.token.getD d.token
    ssid := p.ssid.getD d.ssid
    password := p.password.getD d.password
    mac := match p.mac with
      | some v => some v
      | none => d.mac
    address := match p.address with
      | some v => some v
      | none => d.address
    timeout := match p.timeout with
      | some v => some v
      | none => d.timeout }

/-- One call issued to the native activation provider. -/
inductive AdapterCall where
  | startBle (params : BlePairingParams)
  | startCombo (params : ComboPairingParams)
  | getToken (homeId : Int)
deriving DecidableEq

/-- Responses of the native activation provider, abstracted so that a
theorem quantifying over adapters covers every provider behavior. -/
structure ActivationAdapter where
  startBleDevicePairing : BlePairingParams → Except String PairedDevice
  startComboDevicePairing : ComboPairingParams → Except String PairedDevice
  getEzPairingToken : Int → Except String String

/-- The pairing slice of the hook state. -/
structure PairingState where
  isPairing : Bool := false
  pairingProgress : String := ""
  pairingError : Option String := none
  pairedDevice : Option PairedDevice := none
  currentPairingDevice : Option ScannedDevice := none
deriving DecidableEq

/-- Result of one pairing method call: the returned or thrown value, the
state after the call, and the adapter calls issued during it. -/
structure PairingOutcome where
  result : Except JsError PairedDevice
  state : PairingState
  calls : List AdapterCall

/-- Model of pairBleDeviceMethod.  The two guards throw before any state
update and before the try block; the finally clause clears isPairing and
the current device on every non-guard path; a provider rejection is
recorded with a prefixed message and rethrown unprefixed. -/
def pairBleDeviceMethod (adapter : ActivationAdapter) (homeId : Int)
    (st : PairingState) (device : ScannedDevice)
    (params : BlePairingParamsPartial) : PairingOutcome :=
  if st.isPairing then
    { result := Except.error (JsError.error "Another pairing operation is already in progress"),
      state := st, calls := [] }
  else if isDeviceBound device then
    { result := Except.error (JsError.error "Device is already bound to another account"),
      state := st, calls := [] }
  else
    let st1 := { st with
                 isPairing := true, pairingError := none,
                 pairingProgress := "Starting BLE pairing...",
                 currentPairingDevice := some device }
    let pairingParams := mergeBleParams
      { homeId := homeId, uuid := device.uuid, deviceType := device.deviceType,
        productId := some device.productId, address := some device.address,
        isShare := some (isSharedDevice device), timeout := some 100000 } params
    let st2 := { st1 with pairingProgress := "Connecting to device..." }
    match adapter.startBleDevicePairing pairingParams with
    | Except.ok result =>
      let st3 := { st2 with
                   pairingProgress := "Pairing successful!",
                   pairedDevice := some result }
      { result := Except.ok result,
        state := { st3 with isPairing := false, currentPairingDevice := none },
        calls := [AdapterCall.startBle pairingParams] }
    | Except.error msg =>
      let st3 := { st2 with pairingError := some ("BLE pairing failed: " ++ msg) }
      { result := Except.error (JsError.error msg),
        state := { st3 with isPairing := false, currentPairingDevice := none },
        calls := [AdapterCall.startBle pairingParams] }

/-- Model of pairComboDeviceMethod: guards (busy, bound, missing WiFi
credentials) throw before any state update; then a fresh token is fetched
before the combo activation; failures of either await land in the catch
with the prefixed message. -/
def pairComboDeviceMethod (adapter : ActivationAdapter) (homeId : Int)
    (st : PairingState) (device : ScannedDevice)
    (ssid : String) (password : String)
    (params : ComboPairingParamsPartial) : PairingOutcome :=
  if st.isPairing then
    { result := Except.error (JsError.error "Another pairing operation is already in progress"),
      state := st, calls := [] }
  else if isDeviceBound device then
    { result := Except.error (JsError.error "Device is already bound to another account"),
      state := st, calls := [] }
  else if ssid = "" ∨ password = "" then
    { result := Except.error (JsError.error "WiFi credentials are required for combo device pairing"),
      state := st, calls := [] }
  else
    let st1 := { st with
                 isPairing := true, pairingError := none,
                 pairingProgress := "Starting combo pairing...",
                 currentPairingDevice := some device }
    match adapter.getEzPairingToken homeId with
    | Except.error msg =>
      let st2 := { st1 with pairingError := some ("Combo pairing failed: " ++ msg) }
      { result := Except.error (JsError.error msg),
        state := { st2 with isPairing := false, currentPairingDevice := none },
        calls := [AdapterCall.getToken homeId] }
    | Except.ok token =>
      let pairingParams := mergeComboParams
        { homeId := homeId, uuid := device.uuid, deviceType := device.deviceType,
          token := token, ssid := ssid, password := password,
          mac := some device.mac, address := some device.address,
          timeout := some 120000 } params
      let st2 := { st1 with pairingProgress := "Connecting to WiFi..." }
      match adapter.startComboDevicePairing pairingParams with
      | Except.ok result =>
        let st3 := { st2 with
                     pairingProgress := "Pairing successful!",
                     pairedDevice := some result }
        { result := Except.ok result,
          state := { st3 with isPairing := false, currentPairingDevice := none },
          calls := [AdapterCall.getToken homeId, AdapterCall.startCombo pairingParams] }
      | Except.error msg =>
        let st3 := { st2 with pairingError := some ("Combo pairing failed: " ++ msg) }
        { result := Except.error (JsError.error msg),
          state := { st3 with isPairing := false, currentPairingDevice := none },
          calls := [AdapterCall.getToken homeId, AdapterCall.startCombo pairingParams] }

-- ### Scan session (src/utils/useTuyaPairing.ts, lines 101 to 164)

/-- Model of handleDeviceDiscovered: replace the first entry with the same
uuid in place, otherwise append. -/
def handleDeviceDiscovered (prev : List ScannedDevice) (device : ScannedDevice) :
    List ScannedDevice :=
  match prev.findIdx? (fun d => d.uuid = device.uuid) with
  | some i => prev.set i device
  | none => prev ++ [device]

/-- The scanning slice of the hook state.  pendingTimeout models the armed
auto-stop timer together with the environment its callback closed over:
the scannedDevices binding of the render in which the timer was created. -/
structure ScanSessionState where
  isScanning : Bool := false
  scannedDevices : List ScannedDevice := []
  scanError : Option String := none
  pendingTimeout : Option (List ScannedDevice) := none
deriving DecidableEq

/-- Model of startScanningInternal.  The error state and the device list
are reset and isScanning raised before the provider call; on provider
success the auto-stop timer is armed, and its callback captures the
scannedDevices value of the current render (the value the state had when
the method ran, not a live view); on provider failure the error is
recorded and isScanning lowered, leaving any previously armed timer. -/
def startScanningInternal (startLeScanResult : Except String Unit)
    (st : ScanSessionState) : ScanSessionState :=
  match startLeScanResult with
  | Except.ok _ =>
    { isScanning := true, scannedDevices := [], scanError := none,
      pendingTimeout := some st.scannedDevices }
  | Except.error msg =>
    { isScanning := false, scannedDevices := [],
      scanError := some ("Failed to start scanning: " ++ msg),
      pendingTimeout := st.pendingTimeout }

/-- A discovery event delivered while the session is live: the functional
state update reads the current list. -/
def deviceDiscovered (st : ScanSessionState) (device : ScannedDevice) :
    ScanSessionState :=
  { st with scannedDevices := handleDeviceDiscovered st.scannedDevices device }

/-- The auto-stop timer firing: isScanning is lowered and the completion
listener is invoked with the captured device list.  The second component
is the argument handed to onScanComplete (none when no timer was armed). -/
def fireScanTimeout (st : ScanSessionState) :
    ScanSessionState × Option (List ScannedDevice) :=
  match st.pendingTimeout with
  | none => (st, none)
  | some captured =>
    ({ st with isScanning := false, pendingTimeout := none }, some captured)

-- ### Device status store (src/utils/TuyaUtils.ts, lines 271 to 284)

structure DeviceStatus where
  devId : String
  online : Bool
  dpStr : String
  lastUpdate : String
deriving DecidableEq

/-- The object literal built by the onDpUpdate handler: the fresh fields
come first and the spread of prev comes last, so when prev is non-null
every field of prev (a DeviceStatus always carries all four fields)
overrides the fresh one, and only a null prev produces the fresh entry. -/
def onDpUpdateHandler (deviceId : String) (prev : Option DeviceStatus)
    (eventDpStr : String) (now : String) : DeviceStatus :=
  match prev with
  | none => { devId := deviceId, online := true, dpStr := eventDpStr, lastUpdate := now }
  | some p => { devId := p.devId, online := p.online, dpStr := p.dpStr, lastUpdate := p.lastUpdate }

/-- Model of the onDpUpdate subscription of useDeviceStatus: events for
other devices are ignored, events for the tracked device run the handler
over the previous status. -/
def onDpUpdateEvent (deviceId : String) (status : Option DeviceStatus)
    (eventDevId : String) (eventDpStr : String) (now : String) : Option DeviceStatus :=
  if eventDevId = deviceId then
    some (onDpUpdateHandler deviceId status eventDpStr now)
  else status

-- ### Auxiliary predicates and concrete fixtures used by the theorems

/-- Whether a decoded value is a string-keyed mapping. -/
def isObjValue : JSValue → Bool
  | JSValue.obj _ => true
  | _ => false

/-- The processed value of an encode result is a number lying inside the
given range. -/
def resultWithinRange (pv : Except JsError JSValue) (r : RangeSpec) : Prop :=
  ∃ q : Rat, pv = Except.ok (JSValue.num q) ∧ (r.min : Rat) ≤ q ∧ q ≤ (r.max : Rat)

/-- The uuid column of a scanned-device list. -/
def scannedUuids (devices : List ScannedDevice) : List String :=
  devices.map (fun d => d.uuid)

def cDevA : ScannedDevice :=
  { id := "idA", name := "Light A", mac := "AA", rssi := -40, address := "adA",
    uuid := "uuid-a", deviceType := 1, productId := "prodA",
    configType := "config_type_single", isBind := false, flag := 0 }

/-- A re-discovery of cDevA with a fresher signal strength. -/
def cDevA2 : ScannedDevice := { cDevA with rssi := -20 }

def cDevB : ScannedDevice :=
  { cDevA with id := "idB", uuid := "uuid-b", configType := "config_type_wifi", flag := 1 }

def cDevBound : ScannedDevice := { cDevA with isBind := true }

/-- A provider stub whose behavior never matters in the theorems that use
it, because the traces they establish are empty. -/
def spyAdapter : ActivationAdapter :=
  { startBleDevicePairing := fun _ => Except.error "spy",
    startComboDevicePairing := fun _ => Except.error "spy",
    getEzPairingToken := fun _ => Except.error "spy" }

def idlePairingState : PairingState := {}

def busyPairingState : PairingState := { isPairing := true }

-- ### Claim theorems

/-- Claim C10: getDevicePairingType is total and two-valued over
ScannedDevice: it returns ble exactly when configType equals the string
config_type_single, and classifies every other configType value,
unknown or empty strings included, as combo; there is no error case. -/
theorem c10_pairing_type_total (device : ScannedDevice) :
    (getDevicePairingType device = PairingType.ble ↔
      device.configType = "config_type_single") ∧
    (getDevicePairingType device = PairingType.combo ↔
      device.configType ≠ "config_type_single") := by
  unfold getDevicePairingType
  by_cases h : device.configType = "config_type_single" <;> simp [h]

/-- Concrete instances of C10 obtained from the theorem: a
config_type_single device classifies as ble, a config_type_wifi and an
empty-configType device classify as combo. -/
theorem c10_pairing_type_witness :
    getDevicePairingType cDevA = PairingType.ble ∧
    getDevicePairingType cDevB = PairingType.combo ∧
    getDevicePairingType { cDevA with configType := "" } = PairingType.combo := by
  refine ⟨(c10_pairing_type_total cDevA).1.mpr (by decide), ?_, ?_⟩
  · exact (c10_pairing_type_total cDevB).2.mpr (by decide)
  · exact (c10_pairing_type_total { cDevA with configType := "" }).2.mpr (by decide)

/-- Claim C3: for an enum DataPoint with an options list, encoding a value
that is not one of the option strings fails with the invalid-enum-value
Error before anything is published (the function is pure and returns the
error instead of a payload), and encoding a listed option succeeds with
the value passed through unchanged into the payload. -/
theorem c3_enum_validation (command : DeviceCommandMapping) (opts : List String)
    (value : JSValue)
    (hty : command.type = CommandType.enum)
    (hopts : command.options = some opts) :
    ((∀ s, value = JSValue.str s → s ∉ opts) →
      createCommandPayload command value =
        Except.error (JsError.error ("Invalid enum value: " ++ jsDisplay value ++
          ". Valid options: " ++ String.intercalate ", " opts))) ∧
    (∀ s, value = JSValue.str s → s ∈ opts →
      createCommandPayload command value =
        Except.ok (jsonStringify (JSValue.obj [(toString command.dpId, value)]))) := by
  constructor
  · intro hnot
    unfold createCommandPayload processValue
    rw [hty, hopts]
    cases value with
    | str s =>
      have hsn : s ∉ opts := hnot s rfl
      simp [List.elem_iff, hsn, Except.map]
    | null => simp [Except.map]
    | nan => simp [Except.map]
    | bool b => simp [Except.map]
    | num q => simp [Except.map]
    | arr es => simp [Except.map]
    | obj fs => simp [Except.map]
  · intro s hv hs
    subst hv
    unfold createCommandPayload processValue
    rw [hty, hopts]
    simp [List.elem_iff, hs, Except.map]

/-- Concrete instances of C3 obtained from the theorem: on the registered
work_mode DataPoint, the value disco is rejected with the
invalid-enum-value Error and the value scene passes through unchanged. -/
theorem c3_enum_witness :
    createCommandPayload work_mode (JSValue.str "disco") =
      Except.error (JsError.error
        "Invalid enum value: disco. Valid options: white, colour, scene, music") ∧
    createCommandPayload work_mode (JSValue.str "scene") =
      Except.ok "\x7b\"21\":\"scene\"\x7d" := by
  have h := c3_enum_validation work_mode ["white", "colour", "scene", "music"]
    (JSValue.str "disco") rfl rfl
  have h2 := c3_enum_validation work_mode ["white", "colour", "scene", "music"]
    (JSValue.str "scene") rfl rfl
  constructor
  · exact (h.1 (by intro s hs; cases hs; decide)).trans (by rfl)
  · exact (h2.2 "scene" rfl (by decide)).trans (by rfl)

/-- Counterexample to claim C2 as stated: with the bright_value_v2
descriptor (range 10 to 1000) and input value the string abc, the
processed value is NaN, which is not a number inside the range, and the
resulting payload serializes NaN as null. -/
theorem c2_counterexample :
    ¬ resultWithinRange (processValue bright_value_v2 (JSValue.str "abc"))
        { min := 10, max := 1000 } ∧
    createCommandPayload bright_value_v2 (JSValue.str "abc") =
      Except.ok "\x7b\"22\":null\x7d" := by
  constructor
  · rintro ⟨q, hq, -, -⟩
    have h2 : (Except.ok JSValue.nan : Except JsError JSValue) =
        Except.ok (JSValue.num q) := hq
    injection h2 with h
    exact JSValue.noConfusion h
  · rfl

/-- Claim C2 amended: for an integer DataPoint with range min to max
(min at most max), every input value whose JavaScript string form parses
to an integer n (inputs with no parsable digits produce NaN instead, and
null throws) is encoded as the clamp of n into the range, so the
processed value always lies within the range; the payload carries the
clamped number under the dpId key. -/
theorem c2_integer_clamped (command : DeviceCommandMapping) (r : RangeSpec)
    (value : JSValue) (s : String) (n : Int)
    (hty : command.type = CommandType.integer)
    (hr : command.range = some r)
    (hle : r.min ≤ r.max)
    (hs : toStringJS value = Except.ok s)
    (hn : parseIntJS s = some n) :
    processValue command value =
      Except.ok (JSValue.num ((max r.min (min r.max n) : Int) : Rat)) ∧
    resultWithinRange (processValue command value) r ∧
    createCommandPayload command value =
      Except.ok (jsonStringify (JSValue.obj [(toString command.dpId,
        JSValue.num ((max r.min (min r.max n) : Int) : Rat))])) := by
  have hproc : processValue command value =
      Except.ok (JSValue.num ((max r.min (min r.max n) : Int) : Rat)) := by
    simp only [processValue, hty, hs, hr, hn]
  refine ⟨hproc, ⟨((max r.min (min r.max n) : Int) : Rat), hproc, ?_, ?_⟩, ?_⟩
  · exact_mod_cast le_max_left r.min (min r.max n)
  · exact_mod_cast max_le hle (min_le_left r.max n)
  · unfold createCommandPayload
    rw [hproc]
    rfl

/-- Concrete instance of C2 amended obtained from the theorem: the spec
example, descriptor range 10 to 1000 with input 50000, encodes to the
clamped value 1000. -/
theorem c2_integer_witness :
    processValue bright_value_v2 (JSValue.num 50000) = Except.ok (JSValue.num 1000) ∧
    createCommandPayload bright_value_v2 (JSValue.num 50000) =
      Except.ok "\x7b\"22\":1000\x7d" := by
  have h := c2_integer_clamped bright_value_v2 { min := 10, max := 1000 }
    (JSValue.num 50000) "50000" 50000 rfl rfl (by decide) rfl rfl
  exact ⟨h.1.trans (by rfl), h.2.2.trans (by rfl)⟩

/-- Counterexample to claim C1 as stated: the input 5 is valid JSON for a
number, and the decoder returns that number as it is, not a mapping from
string keys to values. -/
theorem c1_counterexample :
    parseJavaHashMapString "5" = JSValue.num 5 ∧
    isObjValue (parseJavaHashMapString "5") = false := ⟨rfl, rfl⟩

/-- Claim C1 amended: the decoder is a total function (the embedding
returns a value for every string and throws nothing); whenever JSON
parsing fails (empty, whitespace-only, malformed and legacy inputs
included) the result is a string-keyed mapping; the legacy example
decodes as the claim states; and on total parse failure the result is
the empty mapping.  Only a valid-JSON input denoting a non-object value
is returned as that value instead of a mapping. -/
theorem c1_decode_total (s : String) :
    (jsonParse s = none → isObjValue (parseJavaHashMapString s) = true) ∧
    parseJavaHashMapString "\x7b1=true,2=500,3=null\x7d" =
      JSValue.obj [("1", JSValue.bool true), ("2", JSValue.num 500), ("3", JSValue.null)] ∧
    parseJavaHashMapString "definitely not parseable" = JSValue.obj [] := by
  refine ⟨?_, rfl, rfl⟩
  intro hnone
  by_cases h1 : (s = "" ∨ jsTrim s = "")
  · simp [parseJavaHashMapString, h1, isObjValue]
  · simp only [parseJavaHashMapString, h1, hnone, if_false]
    by_cases h2 : jsTrim (stripBraces s) = "" <;> simp [h2, isObjValue]

/-- Concrete instance of the amended C1 obtained from the theorem: an
input JSON cannot parse still decodes to a mapping. -/
theorem c1_decode_witness :
    jsonParse "barely text" = none ∧
    isObjValue (parseJavaHashMapString "barely text") = true :=
  ⟨rfl, (c1_decode_total "barely text").1 rfl⟩

/-- Claim C4: for every scanned device with isBind true, in every state,
with every adapter and parameter override, neither pairBleDevice nor
pairComboDevice issues any activation-adapter call (the call trace is
empty, so a spy adapter observes nothing), and whenever no other pairing
is in flight (otherwise the busy guard of C5 fires first, still without
any adapter call) both methods fail with the already-bound error. -/
theorem c4_bound_rejected (adapter : ActivationAdapter) (homeId : Int)
    (st : PairingState) (device : ScannedDevice)
    (bleParams : BlePairingParamsPartial) (comboParams : ComboPairingParamsPartial)
    (ssid password : String)
    (hbound : device.isBind = true) :
    ((pairBleDeviceMethod adapter homeId st device bleParams).calls = [] ∧
     (pairComboDeviceMethod adapter homeId st device ssid password comboParams).calls = []) ∧
    (st.isPairing = false →
      (pairBleDeviceMethod adapter homeId st device bleParams).result =
        Except.error (JsError.error "Device is already bound to another account") ∧
      (pairComboDeviceMethod adapter homeId st device ssid password comboParams).result =
        Except.error (JsError.error "Device is already bound to another account")) := by
  unfold pairBleDeviceMethod pairComboDeviceMethod isDeviceBound
  by_cases hp : st.isPairing <;> simp [hp, hbound]

/-- Concrete instance of C4 obtained from the theorem: a bound device in
the idle state is rejected by both methods with the already-bound error
and the spy adapter sees no call. -/
theorem c4_bound_witness :
    (pairBleDeviceMethod spyAdapter 7 idlePairingState cDevBound {}).calls = [] ∧
    (pairComboDeviceMethod spyAdapter 7 idlePairingState cDevBound "myssid" "mypw" {}).calls = [] ∧
    (pairBleDeviceMethod spyAdapter 7 idlePairingState cDevBound {}).result =
      Except.error (JsError.error "Device is already bound to another account") ∧
    (pairComboDeviceMethod spyAdapter 7 idlePairingState cDevBound "myssid" "mypw" {}).result =
      Except.error (JsError.error "Device is already bound to another account") := by
  have h := c4_bound_rejected spyAdapter 7 idlePairingState cDevBound {} {} "myssid" "mypw" rfl
  exact ⟨h.1.1, h.1.2, (h.2 rfl).1, (h.2 rfl).2⟩

/-- Claim C5: while isPairing is true, a second call to either pairing
method returns immediately with the busy error, leaves the state exactly
as it was (no new attempt is started) and issues no adapter call. -/
theorem c5_busy_rejected (adapter : ActivationAdapter) (homeId : Int)
    (st : PairingState) (device : ScannedDevice)
    (bleParams : BlePairingParamsPartial) (comboParams : ComboPairingParamsPartial)
    (ssid password : String)
    (hbusy : st.isPairing = true) :
    pairBleDeviceMethod adapter homeId st device bleParams =
      { result := Except.error (JsError.error "Another pairing operation is already in progress"),
        state := st, calls := [] } ∧
    pairComboDeviceMethod adapter homeId st device ssid password comboParams =
      { result := Except.error (JsError.error "Another pairing operation is already in progress"),
        state := st, calls := [] } := by
  unfold pairBleDeviceMethod pairComboDeviceMethod
  simp [hbusy]

/-- Concrete instance of C5 obtained from the theorem: with a pairing in
flight, a second call on an unbound device is rejected as busy with the
state unchanged and no adapter call. -/
theorem c5_busy_witness :
    (pairBleDeviceMethod spyAdapter 7 busyPairingState cDevA {}).result =
      Except.error (JsError.error "Another pairing operation is already in progress") ∧
    (pairBleDeviceMethod spyAdapter 7 busyPairingState cDevA {}).state = busyPairingState ∧
    (pairComboDeviceMethod spyAdapter 7 busyPairingState cDevA "myssid" "mypw" {}).calls = [] := by
  have h := c5_busy_rejected spyAdapter 7 busyPairingState cDevA {} {} "myssid" "mypw" rfl
  exact ⟨by rw [h.1], by rw [h.1], by rw [h.2]⟩

/-- Claim C7 evaluated on the code at its failing input: starting a scan
from the idle session succeeds, one device is discovered during the
window, then the auto-stop timer fires.  The session does transition to
not-scanning, and the accumulated set is the one-device list, but the
completion listener is invoked with the empty list the timer callback
captured when the scan started, not with the final set. -/
theorem c7_stale_completion :
    (fireScanTimeout (deviceDiscovered
        (startScanningInternal (Except.ok ()) ({} : ScanSessionState)) cDevA)).1.isScanning
      = false ∧
    (deviceDiscovered (startScanningInternal (Except.ok ()) ({} : ScanSessionState))
        cDevA).scannedDevices = [cDevA] ∧
    (fireScanTimeout (deviceDiscovered
        (startScanningInternal (Except.ok ()) ({} : ScanSessionState)) cDevA)).2
      = some [] ∧
    (some [] : Option (List ScannedDevice)) ≠ some [cDevA] := by
  exact ⟨rfl, rfl, rfl, by decide⟩

/-- Claim C8 evaluated on the code at its failing input: an onDpUpdate
event for a tracked device that already has a stored status leaves the
stored entry completely unchanged (online stays false, the data-point
string stays old, the timestamp is not refreshed), because the object
spread of the previous entry comes last and overrides every fresh field;
only when no entry exists is the fresh entry with online true and the new
blob created. -/
theorem c8_dp_update_not_applied :
    onDpUpdateEvent "dev1"
        (some { devId := "dev1", online := false, dpStr := "old", lastUpdate := "t0" })
        "dev1" "new" "t1" =
      some { devId := "dev1", online := false, dpStr := "old", lastUpdate := "t0" } ∧
    onDpUpdateEvent "dev1" none "dev1" "new" "t1" =
      some { devId := "dev1", online := true, dpStr := "new", lastUpdate := "t1" } ∧
    ("old" : String) ≠ "new" := by
  exact ⟨rfl, rfl, by decide⟩

-- ### Helper lemmas for the scan-deduplication and re-keying claims

/-- The recursion handleDeviceDiscovered satisfies: a uuid match at the
head replaces the head, otherwise the head is kept and the tail is
processed. -/
theorem handleDeviceDiscovered_cons (x : ScannedDevice) (prev : List ScannedDevice)
    (device : ScannedDevice) :
    handleDeviceDiscovered (x :: prev) device =
      if x.uuid = device.uuid then device :: prev
      else x :: handleDeviceDiscovered prev device := by
  unfold handleDeviceDiscovered
  rw [List.findIdx?_cons]
  by_cases h : x.uuid = device.uuid
  · simp [h]
  · simp only [h, decide_False, if_false, List.findIdx?_succ]
    cases hf : List.findIdx? (fun d => d.uuid = device.uuid) prev with
    | none => simp
    | some i => simp

theorem handleDeviceDiscovered_append (prev : List ScannedDevice)
    (device : ScannedDevice) (h : device.uuid ∉ scannedUuids prev) :
    handleDeviceDiscovered prev device = prev ++ [device] := by
  unfold handleDeviceDiscovered
  have hnone : List.findIdx? (fun d => d.uuid = device.uuid) prev = none := by
    rw [List.findIdx?_eq_none_iff]
    intro x hx
    simp only [decide_eq_false_iff_not]
    intro he
    exact h (he ▸ List.mem_map_of_mem (fun d => d.uuid) hx)
  rw [hnone]

theorem mem_scannedUuids_handle (u : String) (prev : List ScannedDevice)
    (device : ScannedDevice)
    (h : u ∈ scannedUuids (handleDeviceDiscovered prev device)) :
    u ∈ scannedUuids prev ∨ u = device.uuid := by
  induction prev with
  | nil =>
    right
    simpa [handleDeviceDiscovered, scannedUuids] using h
  | cons x rest ih =>
    rw [handleDeviceDiscovered_cons] at h
    by_cases hx : x.uuid = device.uuid
    · rw [if_pos hx] at h
      rcases (by simpa [scannedUuids] using h : u = device.uuid ∨ u ∈ scannedUuids rest) with h1 | h1
      · exact Or.inr h1
      · exact Or.inl (by simp [scannedUuids]; right; simpa [scannedUuids] using h1)
    · rw [if_neg hx] at h
      rcases (by simpa [scannedUuids] using h :
          u = x.uuid ∨ u ∈ scannedUuids (handleDeviceDiscovered rest device)) with h1 | h1
      · exact Or.inl (by simp [scannedUuids, h1])
      · rcases ih h1 with h2 | h2
        · exact Or.inl (by simp [scannedUuids]; right; simpa [scannedUuids] using h2)
        · exact Or.inr h2

theorem scannedUuids_handle_nodup (prev : List ScannedDevice)
    (device : ScannedDevice) (h : (scannedUuids prev).Nodup) :
    (scannedUuids (handleDeviceDiscovered prev device)).Nodup := by
  induction prev with
  | nil => simp [handleDeviceDiscovered, scannedUuids]
  | cons x rest ih =>
    have hcons : (x.uuid :: scannedUuids rest).Nodup := h
    have hx : x.uuid ∉ scannedUuids rest := (List.nodup_cons.mp hcons).1
    have hrest : (scannedUuids rest).Nodup := (List.nodup_cons.mp hcons).2
    rw [handleDeviceDiscovered_cons]
    by_cases he : x.uuid = device.uuid
    · rw [if_pos he]
      exact List.nodup_cons.mpr ⟨fun hm => hx (he ▸ hm), hrest⟩
    · rw [if_neg he]
      refine List.nodup_cons.mpr ⟨?_, ih hrest⟩
      intro hmem
      rcases mem_scannedUuids_handle x.uuid rest device hmem with h2 | h2
      · exact hx h2
      · exact he h2

theorem handleDeviceDiscovered_replace (prev : List ScannedDevice)
    (device : ScannedDevice) (i : Nat) (h : i < prev.length)
    (hnodup : (scannedUuids prev).Nodup)
    (hu : (prev.get ⟨i, h⟩).uuid = device.uuid) :
    handleDeviceDiscovered prev device = prev.set i device := by
  induction prev generalizing i with
  | nil => simp at h
  | cons x rest ih =>
    rw [handleDeviceDiscovered_cons]
    cases i with
    | zero =>
      have hx : x.uuid = device.uuid := hu
      rw [if_pos hx, List.set_cons_zero]
    | succ j =>
      have hj : j < rest.length := Nat.lt_of_succ_lt_succ h
      have hu' : (rest.get ⟨j, hj⟩).uuid = device.uuid := hu
      have hmem : device.uuid ∈ scannedUuids rest := by
        rw [← hu']
        exact List.mem_map_of_mem (fun (d : ScannedDevice) => d.uuid)
          (List.get_mem rest j hj)
      have hcons : (x.uuid :: scannedUuids rest).Nodup := hnodup
      have hx : x.uuid ≠ device.uuid := by
        intro he
        exact (List.nodup_cons.mp hcons).1 (he ▸ hmem)
      have hrest : (scannedUuids rest).Nodup := (List.nodup_cons.mp hcons).2
      rw [if_neg hx, List.set_cons_succ, ih j hj hrest hu']

/-- Claim C6: the scanned-device set never holds two entries with the same
uuid: folding any sequence of discovery events from the empty list yields
a list with pairwise distinct uuids; an event with a fresh uuid appends,
and, in a list with distinct uuids, an event matching the entry at
position i replaces exactly that entry in place (last write wins). -/
theorem c6_scan_dedup (events : List ScannedDevice) :
    (scannedUuids (events.foldl handleDeviceDiscovered [])).Nodup ∧
    (∀ prev device, device.uuid ∉ scannedUuids prev →
      handleDeviceDiscovered prev device = prev ++ [device]) ∧
    (∀ prev device (i : Nat) (h : i < List.length prev),
      (scannedUuids prev).Nodup → (prev.get ⟨i, h⟩).uuid = device.uuid →
      handleDeviceDiscovered prev device = prev.set i device) := by
  refine ⟨?_, handleDeviceDiscovered_append, handleDeviceDiscovered_replace⟩
  have aux : ∀ (evs acc : List ScannedDevice), (scannedUuids acc).Nodup →
      (scannedUuids (evs.foldl handleDeviceDiscovered acc)).Nodup := by
    intro evs
    induction evs with
    | nil => intro acc h; exact h
    | cons e rest ih =>
      intro acc h
      exact ih _ (scannedUuids_handle_nodup acc e h)
  exact aux events [] (by simp [scannedUuids])

/-- Concrete instances of C6 obtained from the theorem: a re-discovery of
an already-listed uuid replaces the entry with the newer record, a fresh
uuid appends, and a mixed event sequence yields distinct uuids. -/
theorem c6_scan_dedup_witness :
    (scannedUuids ([cDevA, cDevB, cDevA2].foldl handleDeviceDiscovered [])).Nodup ∧
    handleDeviceDiscovered [cDevA] cDevB = [cDevA, cDevB] ∧
    handleDeviceDiscovered [cDevA, cDevB] cDevA2 = [cDevA2, cDevB] := by
  refine ⟨(c6_scan_dedup [cDevA, cDevB, cDevA2]).1, ?_, ?_⟩
  · exact (c6_scan_dedup []).2.1 [cDevA] cDevB (by decide)
  · exact ((c6_scan_dedup []).2.2 [cDevA, cDevB] cDevA2 0 (by decide)
      (by decide) (by decide)).trans (by rfl)

theorem recordSet_not_mem_append (acc : List (String × JSValue)) (k : String)
    (v : JSValue) (h : k ∉ acc.map Prod.fst) :
    recordSet acc k v = acc ++ [(k, v)] := by
  induction acc with
  | nil => rfl
  | cons kv rest ih =>
    obtain ⟨k', v'⟩ := kv
    simp only [List.map_cons, List.mem_cons] at h
    push_neg at h
    unfold recordSet
    rw [if_neg (fun he => h.1 he.symm)]
    rw [ih h.2]
    rfl

theorem convert_fold_append (l : List (String × JSValue)) :
    ∀ acc : List (String × JSValue),
    (acc.map Prod.fst ++ l.map (fun kv => readableKey kv.1)).Nodup →
    l.foldl (fun acc kv => recordSet acc (readableKey kv.1) kv.2) acc =
      acc ++ l.map (fun kv => (readableKey kv.1, kv.2)) := by
  induction l with
  | nil => intro acc h; simp
  | cons kv rest ih =>
    intro acc h
    obtain ⟨k, v⟩ := kv
    have hk : readableKey k ∉ acc.map Prod.fst := by
      rcases List.nodup_append.mp h with ⟨-, -, hdisj⟩
      intro hmem
      exact hdisj hmem (by simp)
    rw [List.foldl_cons, recordSet_not_mem_append acc _ v hk, ih]
    · simp
    · simpa [List.append_assoc] using h

/-- Counterexample to claim C9 as stated: both keys 20 and 20x resolve via
parseInt to the registered DataPoint 20 (Power), so the second entry
overwrites the image of the first and the entry (20, 1) is not preserved
with its value unchanged under the Power key. -/
theorem c9_counterexample :
    convertDpDataToReadable [("20", JSValue.num 1), ("20x", JSValue.num 2)] =
      [("Power", JSValue.num 2)] ∧
    ("Power", JSValue.num 1) ∉
      convertDpDataToReadable [("20", JSValue.num 1), ("20x", JSValue.num 2)] := by
  have he : convertDpDataToReadable [("20", JSValue.num 1), ("20x", JSValue.num 2)] =
      [("Power", JSValue.num 2)] := rfl
  refine ⟨he, ?_⟩
  rw [he]
  intro hmem
  have h1 : ("Power", JSValue.num 1) = ("Power", JSValue.num 2) :=
    List.mem_singleton.mp hmem
  have h2 : JSValue.num 1 = JSValue.num 2 := congrArg Prod.snd h1
  injection h2 with h3
  exact absurd h3 (by norm_num)

/-- Claim C9 amended: whenever the readable target keys of the entries are
pairwise distinct (no two keys resolve to the same output key), the
conversion re-keys every resolvable entry to its registered human name
and preserves every unresolvable entry under its raw key, values
unchanged and order preserved; on a collision the later entry overwrites
the earlier one. -/
theorem c9_readable_rekey (dpData : List (String × JSValue))
    (hnodup : (dpData.map (fun kv => readableKey kv.1)).Nodup) :
    convertDpDataToReadable dpData =
      dpData.map (fun kv => (readableKey kv.1, kv.2)) := by
  have h := convert_fold_append dpData [] (by simpa using hnodup)
  simpa [convertDpDataToReadable] using h

/-- Concrete instance of the amended C9 obtained from the theorem: key 20
resolves to Power, keys 99 and abc resolve to nothing and pass through. -/
theorem c9_readable_witness :
    convertDpDataToReadable
        [("20", JSValue.bool true), ("99", JSValue.num 7), ("abc", JSValue.str "s")] =
      [("Power", JSValue.bool true), ("99", JSValue.num 7), ("abc", JSValue.str "s")] := by
  have h := c9_readable_rekey
    [("20", JSValue.bool true), ("99", JSValue.num 7), ("abc", JSValue.str "s")]
    (by with_unfolding_all decide)
  exact h.trans (by rfl)

end WiproGoodWid
